import Mathlib

/-!
Verification development for the o1-api repository.

The pricing and cost logic is embedded from the SQL function
`get_model_price` and the Python function `calculate_cost` that appear in
src/tset.py.  Prices are modelled as rationals, dates as integers (a DATE
only ever enters through a total-order comparison, so any linearly ordered
encoding such as YYYYMMDD is faithful).  Components that the repository
only exercises from the outside (UsageMeter, ConversationAssembler,
ToolDecision engine) are modelled from the specification and say so in
their doc comments.  The HTTP test driver in src/test_service.py is
embedded with the network's behaviour as an explicit input.
-/

namespace O1Api

/-- A row of the model_pricing table from src/tset.py: provider, model
name, input/output price per 1000 tokens, effective date, status
(1 = enabled, 0 = disabled).  model_version, currency and timestamps do
not influence get_model_price and are omitted. -/
structure PricingRecord where
  provider : String
  model_name : String
  input_price : ℚ
  output_price : ℚ
  effective_date : ℤ
  status : ℤ
deriving DecidableEq

/-- The WHERE clause of get_model_price in src/tset.py: provider and
model_name equal the query, effective_date <= the query date, status = 1. -/
def priceMatches (p_provider p_model_name : String) (p_date : ℤ)
    (r : PricingRecord) : Bool :=
  r.provider == p_provider && r.model_name == p_model_name &&
    decide (r.effective_date ≤ p_date) && r.status == 1

/-- ORDER BY effective_date DESC LIMIT 1 over a list of rows: the row with
the greatest effective_date (first such row on ties), none on an empty
list. -/
def pickLatest : List PricingRecord → Option PricingRecord
  | [] => none
  | r :: rest =>
    match pickLatest rest with
    | none => some r
    | some b => if b.effective_date > r.effective_date then some b else some r

/-- Which of the two prices get_model_price is asked for
(ENUM of input and output in src/tset.py). -/
inductive PriceType where
  | input
  | output
deriving DecidableEq

/-- The SQL function get_model_price from src/tset.py: select the matching
row with the greatest effective_date and return its input or output price;
IFNULL(price, 0) makes the result 0 when no row matches. -/
def get_model_price (table : List PricingRecord)
    (p_provider p_model_name : String) (p_date : ℤ) (t : PriceType) : ℚ :=
  match pickLatest (table.filter (priceMatches p_provider p_model_name p_date)) with
  | some r =>
    match t with
    | PriceType.input => r.input_price
    | PriceType.output => r.output_price
  | none => 0

/-- Modelled from the spec: the SQL function returns 0 silently, while the
spec additionally flags PriceUnresolved as a warning when no active record
is in force.  The flag is raised exactly when the WHERE clause of
get_model_price selects no row. -/
def priceUnresolved (table : List PricingRecord)
    (p_provider p_model_name : String) (p_date : ℤ) : Bool :=
  (table.filter (priceMatches p_provider p_model_name p_date)).isEmpty

/-- The cost breakdown that calculate_cost in src/tset.py computes:
input cost, output cost and their sum (the Python function returns the
sum; the two addends are its local variables). -/
structure CostBreakdown where
  input_cost : ℚ
  output_cost : ℚ
  total_cost : ℚ
deriving DecidableEq

/-- The markup step of calculate_cost in src/tset.py:
actual price = base price * markup_rate + fixed_markup. -/
def applyMarkup (base markup_rate fixed_markup : ℚ) : ℚ :=
  base * markup_rate + fixed_markup

/-- The Python function calculate_cost from src/tset.py, with the base
prices and the user markup already fetched (the fetch itself is
get_model_price above): actual prices apply the markup, each cost is
tokens / 1000 times the actual price, the total is their sum. -/
def calculate_cost (base_input_price base_output_price : ℚ)
    (markup_rate fixed_markup : ℚ) (input_tokens output_tokens : ℚ) :
    CostBreakdown :=
  let actual_input_price := base_input_price * markup_rate + fixed_markup
  let actual_output_price := base_output_price * markup_rate + fixed_markup
  let input_cost := input_tokens / 1000 * actual_input_price
  let output_cost := output_tokens / 1000 * actual_output_price
  ⟨input_cost, output_cost, input_cost + output_cost⟩

/-- The example pricing table of src/tset.py restricted to the row the
spec scenario uses: (openai, gpt-4, 0.03, 0.06, 2024-01-01), active. -/
def examplePricingTable : List PricingRecord :=
  [⟨"openai", "gpt-4", 3/100, 6/100, 20240101, 1⟩]

/- Helper lemmas about pickLatest. -/

theorem pickLatest_eq_none : ∀ l : List PricingRecord,
    pickLatest l = none ↔ l = [] := by
  intro l
  cases l with
  | nil => simp [pickLatest]
  | cons r rest =>
    simp only [pickLatest]
    cases h : pickLatest rest with
    | none => simp
    | some b =>
      constructor
      · intro hc
        by_cases hgt : b.effective_date > r.effective_date <;> simp [hgt] at hc
      · intro hc
        exact absurd hc (List.cons_ne_nil r rest)

theorem pickLatest_mem : ∀ (l : List PricingRecord) (r : PricingRecord),
    pickLatest l = some r → r ∈ l := by
  intro l
  induction l with
  | nil => intro r h; simp [pickLatest] at h
  | cons a rest ih =>
    intro r h
    simp only [pickLatest] at h
    cases hrest : pickLatest rest with
    | none => rw [hrest] at h; simp at h; simp [h]
    | some b =>
      rw [hrest] at h
      by_cases hgt : b.effective_date > a.effective_date
      · simp [hgt] at h
        exact List.mem_cons_of_mem a (ih r (by rw [hrest, h]))
      · simp [hgt] at h
        simp [h]

theorem pickLatest_max : ∀ (l : List PricingRecord) (r : PricingRecord),
    pickLatest l = some r →
    ∀ x ∈ l, x.effective_date ≤ r.effective_date := by
  intro l
  induction l with
  | nil => intro r h; simp [pickLatest] at h
  | cons a rest ih =>
    intro r h x hx
    simp only [pickLatest] at h
    cases hrest : pickLatest rest with
    | none =>
      rw [hrest] at h
      simp at h
      have : rest = [] := (pickLatest_eq_none rest).1 hrest
      subst this
      simp at hx
      subst hx; subst h; exact le_refl _
    | some b =>
      rw [hrest] at h
      rcases List.mem_cons.1 hx with hxa | hxrest
      · subst hxa
        by_cases hgt : b.effective_date > x.effective_date
        · simp [hgt] at h; subst h; exact le_of_lt hgt
        · simp [hgt] at h; subst h; exact le_refl _
      · have hb := ih b hrest x hxrest
        by_cases hgt : b.effective_date > a.effective_date
        · simp [hgt] at h; subst h; exact hb
        · simp [hgt] at h; subst h
          exact le_trans hb (not_lt.1 hgt)

/-- C1: whenever at least one active PricingRecord for the queried
(provider, model) pair has effective_date ≤ the query date,
get_model_price returns the prices of a matching active record whose
effective_date is maximal among all matching active records; the
embedding is a pure function of the table and the query, so the result
is deterministic. -/
theorem C1_resolve_selects_latest (table : List PricingRecord)
    (provider model_name : String) (date : ℤ)
    (h : ∃ r ∈ table, priceMatches provider model_name date r = true) :
    ∃ r ∈ table, priceMatches provider model_name date r = true ∧
      (∀ s ∈ table, priceMatches provider model_name date s = true →
        s.effective_date ≤ r.effective_date) ∧
      get_model_price table provider model_name date PriceType.input = r.input_price ∧
      get_model_price table provider model_name date PriceType.output = r.output_price := by
  obtain ⟨r0, hr0mem, hr0m⟩ := h
  have hfilter : r0 ∈ table.filter (priceMatches provider model_name date) :=
    List.mem_filter.2 ⟨hr0mem, hr0m⟩
  have hne : table.filter (priceMatches provider model_name date) ≠ [] :=
    List.ne_nil_of_mem hfilter
  cases hp : pickLatest (table.filter (priceMatches provider model_name date)) with
  | none => exact absurd ((pickLatest_eq_none _).1 hp) hne
  | some r =>
    have hrmem := pickLatest_mem _ r hp
    have hrfilt := List.mem_filter.1 hrmem
    refine ⟨r, hrfilt.1, hrfilt.2, ?_, ?_, ?_⟩
    · intro s hs hsm
      exact pickLatest_max _ r hp s (List.mem_filter.2 ⟨hs, hsm⟩)
    · simp [get_model_price, hp]
    · simp [get_model_price, hp]

/-- Witness for C1 at the example table: the gpt-4 record of 2024-01-01
is in force on 2024-06-01. -/
theorem C1_resolve_selects_latest_witness :
    (∃ r ∈ examplePricingTable, priceMatches "openai" "gpt-4" 20240601 r = true) ∧
    ∃ r ∈ examplePricingTable, priceMatches "openai" "gpt-4" 20240601 r = true ∧
      (∀ s ∈ examplePricingTable, priceMatches "openai" "gpt-4" 20240601 s = true →
        s.effective_date ≤ r.effective_date) ∧
      get_model_price examplePricingTable "openai" "gpt-4" 20240601 PriceType.input
        = r.input_price ∧
      get_model_price examplePricingTable "openai" "gpt-4" 20240601 PriceType.output
        = r.output_price :=
  ⟨by decide,
   C1_resolve_selects_latest examplePricingTable "openai" "gpt-4" 20240601 (by decide)⟩

/-- C2: with no markup (rate 1, fixed 0), calculate_cost computes
input_cost = input_tokens / 1000 * input_price, output_cost =
output_tokens / 1000 * output_price and total = input_cost + output_cost;
on the example table ((openai, gpt-4, 0.03, 0.06, 2024-01-01)), a request
dated 2024-06-01 with 1000 input and 500 output tokens resolves to prices
0.03 / 0.06 and costs input 0.03, output 0.03, total 0.06. -/
theorem C2_cost_formula
    (base_input_price base_output_price input_tokens output_tokens : ℚ) :
    (calculate_cost base_input_price base_output_price 1 0
        input_tokens output_tokens).input_cost
      = input_tokens / 1000 * base_input_price ∧
    (calculate_cost base_input_price base_output_price 1 0
        input_tokens output_tokens).output_cost
      = output_tokens / 1000 * base_output_price ∧
    (calculate_cost base_input_price base_output_price 1 0
        input_tokens output_tokens).total_cost
      = (calculate_cost base_input_price base_output_price 1 0
          input_tokens output_tokens).input_cost
        + (calculate_cost base_input_price base_output_price 1 0
            input_tokens output_tokens).output_cost ∧
    get_model_price examplePricingTable "openai" "gpt-4" 20240601 PriceType.input
      = 3/100 ∧
    get_model_price examplePricingTable "openai" "gpt-4" 20240601 PriceType.output
      = 6/100 ∧
    calculate_cost (3/100) (6/100) 1 0 1000 500 = ⟨3/100, 3/100, 6/100⟩ := by
  refine ⟨?_, ?_, rfl, rfl, rfl, ?_⟩
  · simp [calculate_cost]
  · simp [calculate_cost]
  · simp only [calculate_cost, CostBreakdown.mk.injEq]
    norm_num

/-- C3: applyMarkup sends a base unit price to
base * markup_rate + fixed_markup (the multiplicative factor before the
additive surcharge, so it is affine, and linear when the fixed markup is
zero); calculate_cost charges tokens / 1000 times the marked-up price,
and the markup (rate 1.2, fixed 0) on the 0.03 / 0.06 example yields
input_cost 0.036, output_cost 0.036, total 0.072. -/
theorem C3_markup_affine (base markup_rate fixed_markup b₁ b₂
    base_input_price base_output_price input_tokens output_tokens : ℚ) :
    applyMarkup base markup_rate fixed_markup
      = base * markup_rate + fixed_markup ∧
    applyMarkup (b₁ + b₂) markup_rate 0
      = applyMarkup b₁ markup_rate 0 + applyMarkup b₂ markup_rate 0 ∧
    applyMarkup base markup_rate fixed_markup
      = applyMarkup base markup_rate 0 + fixed_markup ∧
    (calculate_cost base_input_price base_output_price markup_rate fixed_markup
        input_tokens output_tokens).input_cost
      = input_tokens / 1000 * applyMarkup base_input_price markup_rate fixed_markup ∧
    (calculate_cost base_input_price base_output_price markup_rate fixed_markup
        input_tokens output_tokens).output_cost
      = output_tokens / 1000 * applyMarkup base_output_price markup_rate fixed_markup ∧
    calculate_cost (3/100) (6/100) (6/5) 0 1000 500
      = ⟨36/1000, 36/1000, 72/1000⟩ := by
  refine ⟨rfl, ?_, ?_, rfl, rfl, ?_⟩
  · simp [applyMarkup]; ring
  · simp [applyMarkup]
  · simp only [calculate_cost, CostBreakdown.mk.injEq]
    norm_num

/-- C4: when no active PricingRecord for the (provider, model) pair has
effective_date ≤ the query date, get_model_price returns 0 for both
price types, the PriceUnresolved flag is raised, the computed cost with
no markup is 0, and the lookup still returns (it is a total function, so
the request is never blocked). -/
theorem C4_unresolved_defaults_zero (table : List PricingRecord)
    (provider model_name : String) (date : ℤ)
    (input_tokens output_tokens : ℚ)
    (h : ∀ r ∈ table, priceMatches provider model_name date r = false) :
    get_model_price table provider model_name date PriceType.input = 0 ∧
    get_model_price table provider model_name date PriceType.output = 0 ∧
    priceUnresolved table provider model_name date = true ∧
    (calculate_cost (get_model_price table provider model_name date PriceType.input)
        (get_model_price table provider model_name date PriceType.output) 1 0
        input_tokens output_tokens).total_cost = 0 := by
  have hfilter : table.filter (priceMatches provider model_name date) = [] := by
    refine List.filter_eq_nil_iff.2 ?_
    intro a ha
    simp [h a ha]
  have hz : ∀ t, get_model_price table provider model_name date t = 0 := by
    intro t
    cases t <;> simp [get_model_price, hfilter, pickLatest]
  refine ⟨hz _, hz _, ?_, ?_⟩
  · simp [priceUnresolved, hfilter]
  · simp [hz, calculate_cost]

/-- Witness for C4: on the example table, a request dated 2023-01-01
precedes every effective date, so pricing is unresolved and all costs
are zero. -/
theorem C4_unresolved_defaults_zero_witness :
    (∀ r ∈ examplePricingTable, priceMatches "openai" "gpt-4" 20230101 r = false) ∧
    (get_model_price examplePricingTable "openai" "gpt-4" 20230101 PriceType.input = 0 ∧
     get_model_price examplePricingTable "openai" "gpt-4" 20230101 PriceType.output = 0 ∧
     priceUnresolved examplePricingTable "openai" "gpt-4" 20230101 = true ∧
     (calculate_cost
        (get_model_price examplePricingTable "openai" "gpt-4" 20230101 PriceType.input)
        (get_model_price examplePricingTable "openai" "gpt-4" 20230101 PriceType.output)
        1 0 1000 500).total_cost = 0) :=
  ⟨by decide,
   C4_unresolved_defaults_zero examplePricingTable "openai" "gpt-4" 20230101 1000 500
     (by decide)⟩

/-- Modelled from the spec: the UsageRecord entity (request id, user id,
model, token counts, resolved unit prices, computed costs, one entry per
completed request).  The UsageMeter is not implemented under src; the
repository only exercises it from the outside. -/
structure UsageRecord where
  request_id : String
  user_id : String
  model : String
  input_tokens : ℕ
  output_tokens : ℕ
  input_price : ℚ
  output_price : ℚ
  input_cost : ℚ
  output_cost : ℚ
  total_cost : ℚ
deriving DecidableEq

/-- Modelled from the spec: the UsageRecord that UsageMeter.record builds
from a request id, token counts and resolved prices, with
input_cost = input_tokens / 1000 * input_price, output_cost =
output_tokens / 1000 * output_price and total their sum. -/
def mkUsageRecord (request_id user_id model : String)
    (input_tokens output_tokens : ℕ) (input_price output_price : ℚ) :
    UsageRecord :=
  let input_cost := (input_tokens : ℚ) / 1000 * input_price
  let output_cost := (output_tokens : ℚ) / 1000 * output_price
  ⟨request_id, user_id, model, input_tokens, output_tokens,
    input_price, output_price, input_cost, output_cost,
    input_cost + output_cost⟩

/-- Modelled from the spec: the persisted store of UsageRecords that the
UsageMeter exclusively writes. -/
structure MeterState where
  records : List UsageRecord
deriving DecidableEq

/-- Modelled from the spec: UsageMeter.record with the request id as a
uniqueness constraint on write.  A duplicate write for an
already-recorded request id is silently deduplicated (a MeteringConflict
is not surfaced to the caller), otherwise the record is appended.  The
Bool is true when the call returns without surfacing an error. -/
def UsageMeter.record (s : MeterState) (r : UsageRecord) :
    MeterState × Bool :=
  if s.records.any (fun u => u.request_id == r.request_id) then (s, true)
  else (⟨s.records ++ [r]⟩, true)

/-- How many persisted UsageRecords carry a given request id. -/
def countRequestId (s : MeterState) (id : String) : ℕ :=
  (s.records.filter (fun u => u.request_id == id)).length

/-- C5: UsageMeter.record is idempotent in the request id: starting from
a store with no record for the id, recording the same UsageRecord twice
leaves exactly one persisted record for that id, the second invocation
leaves the store unchanged, and it reports success rather than an
error. -/
theorem C5_record_idempotent (s : MeterState) (r : UsageRecord)
    (h : countRequestId s r.request_id = 0) :
    countRequestId ((UsageMeter.record ((UsageMeter.record s r).1) r).1)
      r.request_id = 1 ∧
    (UsageMeter.record ((UsageMeter.record s r).1) r).1
      = (UsageMeter.record s r).1 ∧
    (UsageMeter.record ((UsageMeter.record s r).1) r).2 = true := by
  have hfil : s.records.filter (fun u => u.request_id == r.request_id) = [] := by
    have := h
    simp only [countRequestId, List.length_eq_zero] at this
    exact this
  have hnone : ∀ u ∈ s.records, ¬ (u.request_id == r.request_id) = true := by
    intro u hu hc
    have hmem : u ∈ s.records.filter (fun u => u.request_id == r.request_id) :=
      List.mem_filter.2 ⟨hu, hc⟩
    rw [hfil] at hmem
    exact absurd hmem (List.not_mem_nil u)
  have hany : s.records.any (fun u => u.request_id == r.request_id) = false := by
    rw [List.any_eq_false]
    exact hnone
  have h1 : UsageMeter.record s r = (⟨s.records ++ [r]⟩, true) := by
    simp [UsageMeter.record, hany]
  have hany2 : (s.records ++ [r]).any (fun u => u.request_id == r.request_id)
      = true := by
    simp
  have h2 : UsageMeter.record ⟨s.records ++ [r]⟩ r = (⟨s.records ++ [r]⟩, true) := by
    simp [UsageMeter.record]
  refine ⟨?_, ?_, ?_⟩
  · rw [h1]
    simp only [h2]
    simp [countRequestId, List.filter_append, hfil]
  · rw [h1]
    simp only [h2]
  · rw [h1]
    simp only [h2]

/-- Witness for C5: recording one concrete usage record twice into the
empty store persists it exactly once and surfaces no error. -/
theorem C5_record_idempotent_witness :
    countRequestId (MeterState.mk [])
      (mkUsageRecord "req-1" "u1" "gpt-4" 1000 500 (3/100) (6/100)).request_id
      = 0 ∧
    (countRequestId
        ((UsageMeter.record
            ((UsageMeter.record (MeterState.mk [])
                (mkUsageRecord "req-1" "u1" "gpt-4" 1000 500 (3/100) (6/100))).1)
            (mkUsageRecord "req-1" "u1" "gpt-4" 1000 500 (3/100) (6/100))).1)
        (mkUsageRecord "req-1" "u1" "gpt-4" 1000 500 (3/100) (6/100)).request_id
      = 1 ∧
     (UsageMeter.record
        ((UsageMeter.record (MeterState.mk [])
            (mkUsageRecord "req-1" "u1" "gpt-4" 1000 500 (3/100) (6/100))).1)
        (mkUsageRecord "req-1" "u1" "gpt-4" 1000 500 (3/100) (6/100))).1
      = (UsageMeter.record (MeterState.mk [])
          (mkUsageRecord "req-1" "u1" "gpt-4" 1000 500 (3/100) (6/100))).1 ∧
     (UsageMeter.record
        ((UsageMeter.record (MeterState.mk [])
            (mkUsageRecord "req-1" "u1" "gpt-4" 1000 500 (3/100) (6/100))).1)
        (mkUsageRecord "req-1" "u1" "gpt-4" 1000 500 (3/100) (6/100))).2 = true) :=
  ⟨rfl,
   C5_record_idempotent (MeterState.mk [])
     (mkUsageRecord "req-1" "u1" "gpt-4" 1000 500 (3/100) (6/100)) rfl⟩

/-- Modelled from the spec: a chat message, a role and a content (the
shape the test scripts in src/test_function_call.py send). -/
structure Message where
  role : String
  content : String
deriving DecidableEq

/-- Modelled from the spec: the tool-choice policy of a ChatRequest:
auto, none, or a forced tool name. -/
inductive ToolChoice where
  | auto
  | none
  | forced (name : String)
deriving DecidableEq

/-- Modelled from the spec: a ToolCall (tool name, serialized argument
mapping, originating message index). -/
structure ToolCall where
  name : String
  arguments : String
  origin_index : ℕ
deriving DecidableEq

/-- Modelled from the spec: a ToolResult (tool name, call correlation
id, success flag, payload or error detail). -/
structure ToolResult where
  name : String
  call_id : String
  success : Bool
  payload : String
deriving DecidableEq

/-- Modelled from the spec: the ToolDecision step of the orchestrator.
With tool_choice none no tools are selected; with declared tools (auto
or forced) the model's structured output is trusted as the decision. -/
def selectedToolCalls (choice : ToolChoice) (modelCalls : List ToolCall) :
    List ToolCall :=
  match choice with
  | ToolChoice.none => []
  | ToolChoice.auto => modelCalls
  | ToolChoice.forced _ => modelCalls

/-- Modelled from the spec: ToolExecutor runs once per selected
ToolCall; the executions a request causes are exactly the images of its
selected calls. -/
def executedResults (execute : ToolCall → ToolResult)
    (calls : List ToolCall) : List ToolResult :=
  calls.map execute

/-- Modelled from the spec: the tool-role message carrying a
ToolResult's payload. -/
def toolMessage (r : ToolResult) : Message :=
  ⟨"tool", r.payload⟩

/-- Modelled from the spec: ConversationAssembler.assemble appends, for
each ToolCall, a tool-role message carrying its ToolResult payload,
preserving the order in which the calls were issued and never mutating
the original sequence. -/
def assemble (original : List Message)
    (callResults : List (ToolCall × ToolResult)) : List Message :=
  original ++ callResults.map (fun cr => toolMessage cr.2)

/-- C6: with tool_choice none, the decision step selects no tool calls,
so ToolExecutor performs no invocation, and the assembler (given the
resulting empty call list) returns the input messages unchanged. -/
theorem C6_tool_choice_none_noop (modelCalls : List ToolCall)
    (execute : ToolCall → ToolResult) (original : List Message) :
    selectedToolCalls ToolChoice.none modelCalls = [] ∧
    executedResults execute (selectedToolCalls ToolChoice.none modelCalls) = [] ∧
    assemble original [] = original := by
  refine ⟨rfl, rfl, ?_⟩
  simp [assemble]

/-- C7: the assembler's output is the original messages followed by one
tool-role message per ToolCall in issue order: the original messages are
an unchanged prefix, the appended block lists the tool messages in call
order, and the k-th tool message sits at position length + k, strictly
after the assistant turn that requested it whenever that turn is one of
the original messages. -/
theorem C7_assemble_appends_in_order (original : List Message)
    (callResults : List (ToolCall × ToolResult)) (k : ℕ)
    (hk : k < callResults.length)
    (horigin : (callResults.get ⟨k, hk⟩).1.origin_index < original.length) :
    assemble original callResults
      = original ++ callResults.map (fun cr => toolMessage cr.2) ∧
    (assemble original callResults).take original.length = original ∧
    (assemble original callResults).drop original.length
      = callResults.map (fun cr => toolMessage cr.2) ∧
    (assemble original callResults)[original.length + k]?
      = some (toolMessage (callResults.get ⟨k, hk⟩).2) ∧
    (callResults.get ⟨k, hk⟩).1.origin_index < original.length + k := by
  refine ⟨rfl, ?_, ?_, ?_, ?_⟩
  · simp [assemble]
  · simp [assemble]
  · unfold assemble
    rw [List.getElem?_append_right (Nat.le_add_right _ _)]
    rw [Nat.add_sub_cancel_left]
    rw [List.getElem?_map]
    rw [List.getElem?_eq_getElem (by simpa using hk)]
    simp
  · omega

/-- Witness for C7 at one original conversation and one issued call:
the user and assistant turns survive as a prefix and the tool message
lands right after them. -/
theorem C7_assemble_appends_in_order_witness :
    (0 < [(ToolCall.mk "search" "ai trends" 1,
           ToolResult.mk "search" "c1" true "three items")].length) ∧
    assemble [Message.mk "user" "hi", Message.mk "assistant" "calling search"]
        [(ToolCall.mk "search" "ai trends" 1,
          ToolResult.mk "search" "c1" true "three items")]
      = [Message.mk "user" "hi", Message.mk "assistant" "calling search",
         Message.mk "tool" "three items"] :=
  ⟨by decide,
   by
    have h := C7_assemble_appends_in_order
      [Message.mk "user" "hi", Message.mk "assistant" "calling search"]
      [(ToolCall.mk "search" "ai trends" 1,
        ToolResult.mk "search" "c1" true "three items")]
      0 (by decide) (by decide)
    rw [h.1]
    rfl⟩

/-- Whether a marker occurs as a contiguous block inside a character
list. -/
def listContains (marker : List Char) : List Char → Bool
  | [] => marker.isEmpty
  | c :: rest => marker.isPrefixOf (c :: rest) || listContains marker rest

/-- Whether a textual marker occurs inside the request text. -/
def occursIn (text marker : String) : Bool :=
  listContains marker.toList text.toList

/-- Modelled from the spec: the configuration of the implicit-mode
ToolDecision engine.  The spec leaves the classifier pluggable; the
intents the repository's scripts exercise (news, search, explicit URLs)
are classified by configured textual markers. -/
structure ImplicitConfig where
  newsMarkers : List String
  searchMarkers : List String
  urlMarkers : List String
deriving DecidableEq

/-- Modelled from the spec: the implicit ToolDecision, a pure
classification of the request text under the configuration: news beats
search beats crawler, none when no marker occurs. -/
def implicitDecide (cfg : ImplicitConfig) (text : String) : Option String :=
  if cfg.newsMarkers.any (occursIn text) then some "news"
  else if cfg.searchMarkers.any (occursIn text) then some "search"
  else if cfg.urlMarkers.any (occursIn text) then some "crawler"
  else none

/-- C8: the implicit-mode tool decision is deterministic: two runs on
the same request text with the same configuration reach the same
decision about whether, and which, tool to invoke. -/
theorem C8_implicit_decision_deterministic (cfg : ImplicitConfig)
    (text : String) (d₁ d₂ : Option String)
    (h₁ : implicitDecide cfg text = d₁)
    (h₂ : implicitDecide cfg text = d₂) :
    d₁ = d₂ :=
  h₁.symm.trans h₂

/-- Witness for C8: two runs on the search-intent text of
src/test_function_call.py under one concrete configuration agree. -/
theorem C8_implicit_decision_deterministic_witness :
    implicitDecide (ImplicitConfig.mk ["新闻"] ["搜索"] ["http"])
        "请搜索一下最新的人工智能发展趋势" = some "search" ∧
    (some "search" : Option String) = some "search" :=
  ⟨by decide,
   C8_implicit_decision_deterministic
     (ImplicitConfig.mk ["新闻"] ["搜索"] ["http"])
     "请搜索一下最新的人工智能发展趋势"
     (some "search") (some "search") (by decide) (by decide)⟩

/-- What the one HTTP dispatch attempted inside the try block of
APIGatewayTester.make_request (src/test_service.py) does: the call
completes with a response, or raises a connection error, a timeout, or
some other exception. -/
inductive HttpOutcome where
  | ok (response : String)
  | connectionError
  | timeoutError
  | otherException (msg : String)
deriving DecidableEq

/-- The second component of make_request's returned pair: a response
object on success, a message string otherwise. -/
inductive ReqResult where
  | response (r : String)
  | message (m : String)
deriving DecidableEq

/-- Python's str.upper restricted to the ASCII range the HTTP method
strings live in, character by character. -/
def pyUpper (s : String) : String :=
  String.mk (s.toList.map Char.toUpper)

/-- The method dispatch condition of make_request in
src/test_service.py: method.upper() is one of GET, POST, PUT, DELETE. -/
def supportedMethod (method : String) : Bool :=
  pyUpper method == "GET" || pyUpper method == "POST" ||
    pyUpper method == "PUT" || pyUpper method == "DELETE"

/-- The try/except arms of make_request in src/test_service.py applied
to the outcome of the dispatched session call. -/
def dispatchResult : HttpOutcome → Bool × ReqResult
  | HttpOutcome.ok r => (true, ReqResult.response r)
  | HttpOutcome.connectionError =>
      (false, ReqResult.message "连接失败 - 服务器可能未启动")
  | HttpOutcome.timeoutError => (false, ReqResult.message "请求超时")
  | HttpOutcome.otherException e =>
      (false, ReqResult.message ("请求异常: " ++ e))

/-- APIGatewayTester.make_request from src/test_service.py, with the
network's behaviour passed in as the outcome the session call would
have: an unsupported method returns the unsupported-method message
before any session call; a supported method dispatches and the
try/except arms translate the outcome. -/
def make_request (method : String) (outcome : HttpOutcome) :
    Bool × ReqResult :=
  if supportedMethod method then dispatchResult outcome
  else (false, ReqResult.message ("不支持的HTTP方法: " ++ method))

/-- C9: make_request is total at its interface: an unsupported method
yields (False, unsupported-method message) independently of the network
(no HTTP request is consulted), every exception arm yields (False,
message) instead of propagating, and the first component is True exactly
when the method is supported and the HTTP call itself completed. -/
theorem C9_make_request_total (method : String)
    (outcome outcome₂ : HttpOutcome) :
    (supportedMethod method = false →
      make_request method outcome
        = (false, ReqResult.message ("不支持的HTTP方法: " ++ method)) ∧
      make_request method outcome = make_request method outcome₂) ∧
    (supportedMethod method = true →
      make_request method HttpOutcome.connectionError
          = (false, ReqResult.message "连接失败 - 服务器可能未启动") ∧
      make_request method HttpOutcome.timeoutError
          = (false, ReqResult.message "请求超时") ∧
      (∀ e, make_request method (HttpOutcome.otherException e)
          = (false, ReqResult.message ("请求异常: " ++ e))) ∧
      (∀ r, make_request method (HttpOutcome.ok r)
          = (true, ReqResult.response r))) ∧
    ((make_request method outcome).1 = true ↔
      supportedMethod method = true ∧ ∃ r, outcome = HttpOutcome.ok r) := by
  refine ⟨?_, ?_, ?_⟩
  · intro hunsup
    simp [make_request, hunsup]
  · intro hsup
    simp [make_request, hsup, dispatchResult]
  · constructor
    · intro h1
      by_cases hsup : supportedMethod method
      · refine ⟨hsup, ?_⟩
        cases outcome with
        | ok r => exact ⟨r, rfl⟩
        | connectionError => simp [make_request, hsup, dispatchResult] at h1
        | timeoutError => simp [make_request, hsup, dispatchResult] at h1
        | otherException e => simp [make_request, hsup, dispatchResult] at h1
      · simp [make_request, hsup] at h1
    · rintro ⟨hsup, r, hr⟩
      subst hr
      simp [make_request, hsup, dispatchResult]

/-- Witness for C9: the unsupported method PATCH is refused without
touching the network, and a supported GET maps each network outcome to
the pair the code returns. -/
theorem C9_make_request_total_witness :
    (supportedMethod "PATCH" = false ∧
     make_request "PATCH" HttpOutcome.connectionError
        = (false, ReqResult.message ("不支持的HTTP方法: " ++ "PATCH")) ∧
     make_request "PATCH" HttpOutcome.connectionError
        = make_request "PATCH" (HttpOutcome.ok "resp")) ∧
    (supportedMethod "get" = true ∧
     make_request "get" HttpOutcome.timeoutError
        = (false, ReqResult.message "请求超时")) :=
  ⟨⟨by decide,
    (C9_make_request_total "PATCH" HttpOutcome.connectionError
        (HttpOutcome.ok "resp")).1 (by decide)⟩,
   ⟨by decide,
    ((C9_make_request_total "get" HttpOutcome.timeoutError
        HttpOutcome.timeoutError).2.1 (by decide)).2.1⟩⟩

/-- What one test function of APIGatewayTester.run_all_tests
(src/test_service.py) can do when called: return a Bool, or raise an
exception with a message. -/
inductive TestOutcome where
  | ok (b : Bool)
  | exc (msg : String)
deriving DecidableEq

/-- The Bool that run_all_tests appends to its results list for one test
function: the returned value, or False when the call raised (the except
arm appends (name, False)). -/
def outcomeResult : TestOutcome → Bool
  | TestOutcome.ok b => b
  | TestOutcome.exc _ => false

/-- APIGatewayTester.run_all_tests from src/test_service.py over the
outcomes of its six test functions, in their configured order: collect
one Bool per test, count the passed ones, and return whether passed ==
total. -/
def run_all_tests (outcomes : List TestOutcome) : Bool :=
  let results := outcomes.map outcomeResult
  let passed := (results.filter (fun b => b)).length
  passed == results.length

/-- The exit code of main in src/test_service.py:
sys.exit(0 if success else 1) on run_all_tests' result. -/
def mainExitCode (outcomes : List TestOutcome) : ℕ :=
  if run_all_tests outcomes then 0 else 1

theorem run_all_tests_iff (outcomes : List TestOutcome) :
    run_all_tests outcomes = true ↔
      ∀ o ∈ outcomes, outcomeResult o = true := by
  simp only [run_all_tests, beq_iff_eq]
  constructor
  · intro h o ho
    have hsub : List.Sublist
        ((outcomes.map outcomeResult).filter (fun b => b))
        (outcomes.map outcomeResult) := List.filter_sublist _
    have heq := List.Sublist.eq_of_length hsub h
    have : outcomeResult o ∈ (outcomes.map outcomeResult).filter (fun b => b) := by
      rw [heq]
      exact List.mem_map_of_mem outcomeResult ho
    exact (List.mem_filter.1 this).2
  · intro h
    have : (outcomes.map outcomeResult).filter (fun b => b)
        = outcomes.map outcomeResult := by
      rw [List.filter_eq_self]
      intro b hb
      obtain ⟨o, ho, rfl⟩ := List.mem_map.1 hb
      exact h o ho
    rw [this]

/-- C10: run_all_tests over its six configured test functions returns
True exactly when every one of the six returned True (a test that
raised counts as failed, since its result is recorded as False), and
main's exit code is 0 exactly when run_all_tests returned True. -/
theorem C10_run_all_tests_conjunction (o₁ o₂ o₃ o₄ o₅ o₆ : TestOutcome) :
    (run_all_tests [o₁, o₂, o₃, o₄, o₅, o₆] = true ↔
      (o₁ = TestOutcome.ok true ∧ o₂ = TestOutcome.ok true ∧
       o₃ = TestOutcome.ok true ∧ o₄ = TestOutcome.ok true ∧
       o₅ = TestOutcome.ok true ∧ o₆ = TestOutcome.ok true)) ∧
    (mainExitCode [o₁, o₂, o₃, o₄, o₅, o₆] = 0 ↔
      run_all_tests [o₁, o₂, o₃, o₄, o₅, o₆] = true) := by
  have hres : ∀ o : TestOutcome,
      outcomeResult o = true ↔ o = TestOutcome.ok true := by
    intro o
    cases o with
    | ok b => cases b <;> simp [outcomeResult]
    | exc m => simp [outcomeResult]
  constructor
  · rw [run_all_tests_iff]
    simp only [List.mem_cons, List.not_mem_nil, or_false, forall_eq_or_imp,
      forall_eq, hres]
  · unfold mainExitCode
    cases hrt : run_all_tests [o₁, o₂, o₃, o₄, o₅, o₆] <;> simp [hrt]

end O1Api
